import Mathlib

/-!
# Verification of the convex-poc2 update-form state machine

Shallow embedding of the repository's client/server logic:

* `Record`, the document shape of the `mockData` table
  (convex/schema.ts plus the platform-assigned `_id`/`_creationTime`);
* `jsToNumber` / `jsIsNaN` / `jsNumToString`, the fragment of JavaScript
  number coercion the pages rely on (`Number(string)`, `isNaN`,
  `Number.prototype.toString`);
* `handleRecordSelect`, `submitValidate`, `submitRun`, `updatePageRender`,
  the UpdatePage component (src/pages/UpdatePage.jsx);
* `viewPageRender`, the ViewPage component (src/pages/ViewPage.jsx);
* `updateMockData`, the Convex mutation (convex/functions.ts) over a list
  model of the document store, with `ctx.db.patch` modelled by `dbPatch`.

React component state is modelled explicitly (`FormState`); the `useState`
setters of an unmounted component instance are no-ops on that instance's
state, which `dispatch` reflects (`Component`).
-/

/-- A JavaScript number as the pages use it: NaN, the two infinities, or a
finite value.  Finite values are modelled as exact rationals; the repository
never relies on double rounding (all literals exercised are small integers). -/
inductive JSNum where
  | nan : JSNum
  | inf : JSNum
  | negInf : JSNum
  | num (q : ℚ) : JSNum
  deriving DecidableEq, Repr

/-- JavaScript `isNaN` on an already-coerced number. -/
def jsIsNaN : JSNum → Bool
  | .nan => true
  | _ => false

/-- ASCII whitespace as `String.prototype.trim` and `StringToNumber` strip
it (the Unicode space classes never arise from the pages' inputs). -/
def jsWhitespace (c : Char) : Bool :=
  c = ' ' ∨ c = '\t' ∨ c = '\n' ∨ c = '\r' ∨ c = '\x0b' ∨ c = '\x0c'

/-- Strip leading and trailing JavaScript whitespace (`String.prototype.trim`). -/
def jsTrimList (cs : List Char) : List Char :=
  ((cs.dropWhile jsWhitespace).reverse.dropWhile jsWhitespace).reverse

/-- `String.prototype.trim`, as the UpdatePage validation applies it to the
name draft. -/
def jsTrim (s : String) : String :=
  String.mk (jsTrimList s.toList)

/-- Digit value of a character in base `b`, if it is a digit of that base
(`0-9`, and `a-f`/`A-F` when `b = 16`). -/
def digitVal? (b : Nat) (c : Char) : Option Nat :=
  let v :=
    if '0' ≤ c ∧ c ≤ '9' then some (c.toNat - '0'.toNat)
    else if 'a' ≤ c ∧ c ≤ 'f' then some (c.toNat - 'a'.toNat + 10)
    else if 'A' ≤ c ∧ c ≤ 'F' then some (c.toNat - 'A'.toNat + 10)
    else none
  match v with
  | some d => if d < b then some d else none
  | none => none

/-- Split a character list into its longest prefix of base-`b` digits
(as digit values) and the remainder. -/
def takeDigits (b : Nat) : List Char → List Nat × List Char
  | [] => ([], [])
  | c :: cs =>
    match digitVal? b c with
    | some d =>
      let (ds, r) := takeDigits b cs
      (d :: ds, r)
    | none => ([], c :: cs)

/-- Value of a big-endian digit list in base `b`. -/
def digitsVal (b : Nat) (ds : List Nat) : Nat :=
  ds.foldl (fun a d => a * b + d) 0

/-- Optional exponent part of a decimal literal (`e`/`E`, optional sign,
digits), which must consume the whole remainder; the literal's value is
carried as a decimal mantissa `m` and a power-of-ten scale `sc`. -/
def parseExpOpt (m : Nat) (sc : Int) : List Char → Option (Nat × Int)
  | [] => some (m, sc)
  | e :: rest =>
    if e = 'e' ∨ e = 'E' then
      let (sgn, rest2) : Int × List Char :=
        match rest with
        | '+' :: t => (1, t)
        | '-' :: t => (-1, t)
        | t => (1, t)
      let (ds, r3) := takeDigits 10 rest2
      if ds = [] ∨ r3 ≠ [] then none
      else some (m, sc + sgn * (digitsVal 10 ds : Int))
    else none

/-- `StrUnsignedDecimalLiteral` of the ECMAScript `StringToNumber` coercion
(without `Infinity`, handled by the caller): digits, optional fraction,
optional exponent; the whole list must be consumed.  Returns mantissa and
power-of-ten scale, so the denoted value is `mantissa * 10 ^ scale`. -/
def parseUnsignedDec (cs : List Char) : Option (Nat × Int) :=
  let (ip, r1) := takeDigits 10 cs
  match r1 with
  | '.' :: r2 =>
    let (fp, r3) := takeDigits 10 r2
    if ip = [] ∧ fp = [] then none
    else
      parseExpOpt (digitsVal 10 ip * 10 ^ fp.length + digitsVal 10 fp)
        (-(fp.length : Int)) r3
  | _ =>
    if ip = [] then none
    else parseExpOpt (digitsVal 10 ip) 0 r1

/-- The rational `± mantissa * 10 ^ scale` denoted by a decimal literal. -/
def decValue (neg : Bool) (m : Nat) (sc : Int) : ℚ :=
  let n : Int := if neg then -(m : Int) else (m : Int)
  if 0 ≤ sc then mkRat (n * (10 : Int) ^ sc.toNat) 1
  else mkRat n ((10 : Nat) ^ (-sc).toNat)

/-- Non-decimal integer literal body (after `0x`/`0o`/`0b`): one or more
digits of the base, consuming the whole list. -/
def parseRadix (b : Nat) (cs : List Char) : JSNum :=
  let (ds, r) := takeDigits b cs
  if ds = [] ∨ r ≠ [] then .nan else .num (mkRat (digitsVal b ds) 1)

/-- Signed decimal literal or signed `Infinity` (non-decimal literals take
no sign in JavaScript). -/
def parseSignedDec (cs : List Char) : JSNum :=
  let (neg, body) : Bool × List Char :=
    match cs with
    | '+' :: t => (false, t)
    | '-' :: t => (true, t)
    | t => (false, t)
  if body = ['I', 'n', 'f', 'i', 'n', 'i', 't', 'y'] then
    if neg then .negInf else .inf
  else
    match parseUnsignedDec body with
    | some (m, sc) => .num (decValue neg m sc)
    | none => .nan

/-- JavaScript `Number(string)` (the `StringToNumber` coercion) on the
fragment the pages can produce: leading/trailing whitespace is stripped, the
empty remainder is `0`, `0x`/`0o`/`0b` literals are unsigned, otherwise a
signed decimal literal or signed `Infinity`; anything else is NaN.  `-0` is
identified with `0` (the pages only test the result with `isNaN`).  Finite
results are exact, not rounded to binary64. -/
def jsToNumber (s : String) : JSNum :=
  match jsTrimList s.toList with
  | [] => .num 0
  | '0' :: x :: rest =>
    if x = 'x' ∨ x = 'X' then parseRadix 16 rest
    else if x = 'o' ∨ x = 'O' then parseRadix 8 rest
    else if x = 'b' ∨ x = 'B' then parseRadix 2 rest
    else parseSignedDec ('0' :: x :: rest)
  | cs => parseSignedDec cs

/-- Decimal digits of `n / d` after the point, by long division, stopping at
a zero remainder or after `fuel` digits. -/
def fracDigits (fuel : Nat) (n d : Nat) : List Char :=
  match fuel with
  | 0 => []
  | fuel + 1 =>
    if n = 0 then []
    else
      let q := n * 10 / d
      let r := n * 10 % d
      Char.ofNat ('0'.toNat + q) :: fracDigits fuel r d

/-- JavaScript `Number.prototype.toString` (radix 10) on the fragment the
pages can hold: `NaN`/`Infinity` spellings, integers in decimal, and other
finite values as integer part, point, fraction digits (exact when the
expansion terminates; the repository only stringifies integers). -/
def jsNumToString : JSNum → String
  | .nan => "NaN"
  | .inf => "Infinity"
  | .negInf => "-Infinity"
  | .num q =>
    if q.den = 1 then toString q.num
    else
      (if q < 0 then "-" else "") ++ toString (q.num.natAbs / q.den) ++ "." ++
        String.mk (fracDigits 64 (q.num.natAbs % q.den) q.den)

/-- One document of the `mockData` table: the schema's `name`, `value`,
optional `description`, plus the platform-assigned `_id` and
`_creationTime`. -/
structure Record where
  _id : String
  name : String
  value : JSNum
  description : Option String
  _creationTime : ℚ
  deriving DecidableEq, Repr

example : jsToNumber "250" = .num (mkRat 250 1) := by decide
example : jsToNumber "   " = .num (mkRat 0 1) := by decide
example : jsToNumber "" = .num (mkRat 0 1) := by decide
example : jsToNumber "Infinity" = .inf := by decide
example : jsIsNaN (jsToNumber "abc") = true := by decide
example : jsToNumber "1.5e2" = .num (mkRat 150 1) := by decide
example : jsToNumber "0x10" = .num (mkRat 16 1) := by decide
example : jsToNumber "-0x10" = .nan := by decide
example : jsToNumber " -12.5 " = .num (mkRat (-125) 10) := by decide
example : jsToNumber "250" = .num 250 := by decide
example : jsNumToString (.num 100) = "100" := by rfl

/-! ## UpdatePage form state (src/pages/UpdatePage.jsx) -/

/-- The six `useState` hooks of UpdatePage: `selectedId`, `name`, `value`,
`isSubmitting`, `successMessage`, `errorMessage`.  The empty string plays
the role of "unset" for `selectedId` and of "no message" for the two
message fields, exactly as the component's truthiness tests treat it. -/
structure FormState where
  selectedId : String
  name : String
  value : String
  isSubmitting : Bool
  successMessage : String
  errorMessage : String
  deriving DecidableEq, Repr

/-- The initial hook values: everything empty, not submitting. -/
def initialFormState : FormState :=
  { selectedId := "", name := "", value := "", isSubmitting := false,
    successMessage := "", errorMessage := "" }

/-- The argument object passed to the `updateMockData` mutation. -/
structure MutationArgs where
  id : String
  name : String
  value : JSNum
  deriving DecidableEq, Repr

/-- `onChange` of the name input: `setName(e.target.value)`. -/
def editName (t : String) (st : FormState) : FormState :=
  { st with name := t }

/-- `onChange` of the value input: `setValue(e.target.value)`. -/
def editValue (t : String) (st : FormState) : FormState :=
  { st with value := t }

/-- `handleRecordSelect`: store the chosen id; if a record with that id is
in the loaded data, copy its `name` and stringified `value` into the drafts
and clear both messages (`mockData?.find((item) => item._id === id)`). -/
def handleRecordSelect (mockData : Option (List Record)) (id : String)
    (st : FormState) : FormState :=
  let st1 := { st with selectedId := id }
  match (mockData.getD []).find? (fun item => item._id == id) with
  | some r =>
    { st1 with name := r.name, value := jsNumToString r.value,
               successMessage := "", errorMessage := "" }
  | none => st1

/-- Result of the synchronous part of `handleSubmit`: either a validation
check failed (state updated with the error message, mutation not reached),
or validation passed and the mutation is invoked with the given arguments
from the pre-invocation state (`isSubmitting` set, both messages cleared). -/
inductive SubmitStep where
  | rejected (st : FormState) : SubmitStep
  | invoked (st : FormState) (args : MutationArgs) : SubmitStep
  deriving DecidableEq, Repr

/-- The validation sequence of `handleSubmit`, in source order with its
short-circuiting `return`s: `!selectedId`, then `!name.trim()`, then
`value === "" || isNaN(Number(value))`; on success `setIsSubmitting(true)`,
both messages cleared, and the mutation is called with
`{id: selectedId, name: name.trim(), value: Number(value)}`. -/
def submitValidate (st : FormState) : SubmitStep :=
  if st.selectedId = "" then
    .rejected { st with errorMessage := "Please select a record to update." }
  else if jsTrim st.name = "" then
    .rejected { st with errorMessage := "Name cannot be empty." }
  else if st.value = "" ∨ jsIsNaN (jsToNumber st.value) then
    .rejected { st with errorMessage := "Value must be a valid number." }
  else
    .invoked
      { st with isSubmitting := true, errorMessage := "", successMessage := "" }
      { id := st.selectedId, name := jsTrim st.name, value := jsToNumber st.value }

/-- The success message shown by `handleSubmit`. -/
def successText : String :=
  "Record updated successfully! Check the View page to see the change."

/-- The prefix of the failure message shown by `handleSubmit`'s catch. -/
def failPrefix : String := "Failed to update record: "

/-- `setTimeout` delay after which the success message is cleared (ms). -/
def successTimerDelayMs : Nat := 3000

/-- A whole run of `handleSubmit` at the form-state level: `res` is how the
awaited mutation settles (`.ok` fulfilled, `.error r` rejected with message
`r`; ignored when validation rejects).  Returns the final state, the list
of mutation invocations the run performed, and the delay of the
`setTimeout` it scheduled, if any. -/
def submitRun (st : FormState) (res : Except String Unit) :
    FormState × List MutationArgs × Option Nat :=
  match submitValidate st with
  | .rejected st' => (st', [], none)
  | .invoked st' args =>
    match res with
    | .ok _ =>
      ({ st' with successMessage := successText, isSubmitting := false },
        [args], some successTimerDelayMs)
    | .error r =>
      ({ st' with errorMessage := failPrefix ++ r, isSubmitting := false },
        [args], none)

/-! ## Rendering (ViewPage.jsx and the render section of UpdatePage.jsx) -/

/-- What ViewPage renders: the loading container, the empty state, or the
data table with one row per record. -/
inductive ViewRender where
  | loading : ViewRender
  | empty : ViewRender
  | table (rows : List Record) : ViewRender
  deriving DecidableEq, Repr

/-- `ViewPage`: `undefined` (modelled `none`) renders loading; a zero-length
array renders the empty state; otherwise the table of all records. -/
def viewPageRender (mockData : Option (List Record)) : ViewRender :=
  match mockData with
  | none => .loading
  | some l => if l.length = 0 then .empty else .table l

/-- The `disabled` attributes and conditionally rendered messages of the
populated UpdatePage form. -/
structure FormControls where
  selectorDisabled : Bool
  nameDisabled : Bool
  valueDisabled : Bool
  submitDisabled : Bool
  errorShown : Option String
  successShown : Option String
  deriving DecidableEq, Repr

/-- What UpdatePage renders: loading, the empty state (no form, hence no
selector), or the form with its selector options and control attributes. -/
inductive UpdateRender where
  | loading : UpdateRender
  | empty : UpdateRender
  | form (options : List Record) (c : FormControls) : UpdateRender
  deriving DecidableEq, Repr

/-- `UpdatePage`'s render: the same loading / empty-data early returns as
ViewPage, then the form; the selector is `disabled={isSubmitting}`, the
name/value inputs and submit button are `disabled={!selectedId ||
isSubmitting}`, and each message `<div>` is rendered exactly when the
corresponding message string is truthy (non-empty). -/
def updatePageRender (mockData : Option (List Record)) (st : FormState) :
    UpdateRender :=
  match mockData with
  | none => .loading
  | some l =>
    if l.length = 0 then .empty
    else
      .form l
        { selectorDisabled := st.isSubmitting,
          nameDisabled := (st.selectedId == "") || st.isSubmitting,
          valueDisabled := (st.selectedId == "") || st.isSubmitting,
          submitDisabled := (st.selectedId == "") || st.isSubmitting,
          errorShown := if st.errorMessage = "" then none else some st.errorMessage,
          successShown := if st.successMessage = "" then none else some st.successMessage }

/-! ## Component lifecycle

`handleSubmit` settles asynchronously (`await`, `setTimeout`), so its
continuations can run after the component instance is gone.  A React
function component's `useState` setters applied after unmount are discarded
by React — they never change any state (the instance's state no longer
exists) — which `dispatch` reflects with the `mounted` guard. -/

/-- A live or torn-down UpdatePage instance. -/
structure Component where
  st : FormState
  mounted : Bool
  deriving DecidableEq, Repr

/-- Deliver a batch of `useState` updates to an instance: applied while the
instance is mounted, discarded (no state is mutated) once it is unmounted. -/
def dispatch (f : FormState → FormState) (c : Component) : Component :=
  if c.mounted then { c with st := f c.st } else c

/-- The `setTimeout` callback scheduled on mutation success:
`setSuccessMessage("")`. -/
def clearSuccessMessage (st : FormState) : FormState :=
  { st with successMessage := "" }

/-- The 3-second timer firing against an instance. -/
def timerFire (c : Component) : Component :=
  dispatch clearSuccessMessage c

/-- The continuation of `handleSubmit` after the awaited mutation settles,
at the instance level: on fulfilment set the success message and schedule
the 3-second timer, on rejection set the failure message; either way the
`finally` clears `isSubmitting`.  The timer is scheduled by the running
code regardless of mounting; only state updates are guarded. -/
def submitSettle (c : Component) (res : Except String Unit) :
    Component × Option Nat :=
  match res with
  | .ok _ =>
    (dispatch (fun st =>
      { st with successMessage := successText, isSubmitting := false }) c,
      some successTimerDelayMs)
  | .error r =>
    (dispatch (fun st =>
      { st with errorMessage := failPrefix ++ r, isSubmitting := false }) c,
      none)

/-! ## Convex backend (convex/functions.ts, convex/schema.ts)

The `mockData` table is modelled as the list of its documents in store
order; `ctx.db.patch` patches the document with the given id. -/

/-- The field update `ctx.db.patch(id, { name, value })` performs on a
single document: documents with the given `_id` get the new `name` and
`value`, all other fields and all other documents are untouched. -/
def patchFn (a : MutationArgs) (r : Record) : Record :=
  if r._id = a.id then { r with name := a.name, value := a.value } else r

/-- `ctx.db.patch(id, { name, value })` on the whole table: fails (throws)
when no document has the id, otherwise updates the table. -/
def dbPatch (db : List Record) (a : MutationArgs) : Option (List Record) :=
  if db.any (fun r => r._id == a.id) then some (db.map (patchFn a)) else none

/-- The `updateMockData` mutation handler: patch the document, return its
id; `none` models the handler throwing (document not found). -/
def updateMockData (db : List Record) (a : MutationArgs) :
    Option (String × List Record) :=
  match dbPatch db a with
  | some db' => some (a.id, db')
  | none => none

/-- The `getMockData` query handler: all documents of the table. -/
def getMockData (db : List Record) : List Record := db

/-! ## Sample data for concrete runs -/

/-- The record used throughout the repository's examples and tests. -/
def sampleRecord : Record :=
  { _id := "abc123", name := "Alpha", value := .num 100,
    description := some "First", _creationTime := 0 }

/-- A second record, to exercise frame conditions. -/
def otherRecord : Record :=
  { _id := "def456", name := "Beta", value := .num 7,
    description := none, _creationTime := 1 }

/-- A form state in which all three validation checks pass. -/
def validState : FormState :=
  { selectedId := "abc123", name := "Alpha", value := "100",
    isSubmitting := false, successMessage := "", errorMessage := "" }

/-- A form state captured mid-flight: a record is selected and a submission
is outstanding. -/
def submittingState : FormState :=
  { selectedId := "abc123", name := "Alpha", value := "100",
    isSubmitting := true, successMessage := "", errorMessage := "" }

/-- A form state still displaying the transient success message of an
earlier submission, whose name draft has since been blanked. -/
def staleSuccessState : FormState :=
  { selectedId := "abc123", name := "   ", value := "100",
    isSubmitting := false, successMessage := successText, errorMessage := "" }

/-! ## Helper lemmas -/

/-- When the listed ids are pairwise distinct, `find?` with an id test
returns the member carrying that id. -/
theorem find?_id_eq (l : List Record) (id : String) (r : Record)
    (hnd : (l.map Record._id).Nodup) (hmem : r ∈ l) (hid : r._id = id) :
    l.find? (fun item => item._id == id) = some r := by
  induction l with
  | nil => simp at hmem
  | cons h t ih =>
    rw [List.map_cons, List.nodup_cons] at hnd
    rcases List.mem_cons.mp hmem with rfl | hmem'
    · simp [List.find?, hid]
    · have hne : h._id ≠ id := by
        intro he
        have hin : r._id ∈ t.map Record._id := List.mem_map_of_mem Record._id hmem'
        rw [hid, ← he] at hin
        exact hnd.1 hin
      simp only [List.find?]
      rw [show (h._id == id) = false from by simp [hne]]
      exact ih hnd.2 hmem'

/-! ## Claims -/

/-- C1: when a record is selected, the trimmed name draft is non-empty and
the value draft coerces to a non-NaN number, `handleSubmit` reaches the
mutation from the state with `isSubmitting` set and both messages cleared,
and the whole run invokes the mutation exactly once, with
`{id: selectedId, name: name.trim(), value: Number(value)}`. -/
theorem submit_valid_invokes_once (st : FormState) (res : Except String Unit)
    (hsel : st.selectedId ≠ "")
    (hname : jsTrim st.name ≠ "")
    (hval : ¬(st.value = "" ∨ jsIsNaN (jsToNumber st.value))) :
    submitValidate st =
      .invoked
        { st with isSubmitting := true, errorMessage := "", successMessage := "" }
        { id := st.selectedId, name := jsTrim st.name, value := jsToNumber st.value } ∧
    (submitRun st res).2.1 =
      [{ id := st.selectedId, name := jsTrim st.name, value := jsToNumber st.value }] := by
  have h1 : submitValidate st =
      .invoked
        { st with isSubmitting := true, errorMessage := "", successMessage := "" }
        { id := st.selectedId, name := jsTrim st.name, value := jsToNumber st.value } := by
    rw [submitValidate, if_neg hsel, if_neg hname, if_neg hval]
  refine ⟨h1, ?_⟩
  cases res <;> simp [submitRun, h1]

/-- Witness for C1: the spec's own example — select
`{id:"abc123", name:"Alpha", value:100}`, edit the name to `"Updated Name"`
and the value to `"250"`, submit: the one invocation carries
`{id:"abc123", name:"Updated Name", value:250}`. -/
theorem submit_valid_invokes_once_witness :
    (submitRun
        (editValue "250" (editName "Updated Name"
          (handleRecordSelect (some [sampleRecord]) "abc123" initialFormState)))
        (.ok ())).2.1 =
      [{ id := "abc123", name := "Updated Name", value := .num 250 }] :=
  ((submit_valid_invokes_once
      (editValue "250" (editName "Updated Name"
        (handleRecordSelect (some [sampleRecord]) "abc123" initialFormState)))
      (.ok ()) (by decide) (by decide) (by decide)).2).trans (by decide)

/-- C2: `handleSubmit` checks, in order and short-circuiting: no selection,
blank trimmed name, non-numeric value; each failure leaves the run with no
mutation invocation and exactly the corresponding error message. -/
theorem submit_validation_order (st : FormState) (res : Except String Unit) :
    (st.selectedId = "" →
      submitRun st res =
        ({ st with errorMessage := "Please select a record to update." }, [], none)) ∧
    (st.selectedId ≠ "" → jsTrim st.name = "" →
      submitRun st res =
        ({ st with errorMessage := "Name cannot be empty." }, [], none)) ∧
    (st.selectedId ≠ "" → jsTrim st.name ≠ "" →
      (st.value = "" ∨ jsIsNaN (jsToNumber st.value)) →
      submitRun st res =
        ({ st with errorMessage := "Value must be a valid number." }, [], none)) := by
  refine ⟨fun h1 => ?_, fun h1 h2 => ?_, fun h1 h2 h3 => ?_⟩
  · rw [submitRun, submitValidate, if_pos h1]
  · rw [submitRun, submitValidate, if_neg h1, if_pos h2]
  · rw [submitRun, submitValidate, if_neg h1, if_neg h2, if_pos h3]

/-- Witness for C2: submitting with no selection, with whitespace-only name
`"   "`, and with value `"abc"` each set the corresponding message and
never invoke the mutation. -/
theorem submit_validation_order_witness :
    submitRun { initialFormState with value := "100" } (.ok ()) =
      ({ initialFormState with value := "100", errorMessage := "Please select a record to update." }, [], none) ∧
    submitRun { validState with name := "   " } (.ok ()) =
      ({ validState with name := "   ", errorMessage := "Name cannot be empty." }, [], none) ∧
    submitRun { validState with value := "abc" } (.ok ()) =
      ({ validState with value := "abc", errorMessage := "Value must be a valid number." }, [], none) :=
  ⟨(submit_validation_order { initialFormState with value := "100" } (.ok ())).1
      (by decide),
   (submit_validation_order { validState with name := "   " } (.ok ())).2.1
      (by decide) (by decide),
   (submit_validation_order { validState with value := "abc" } (.ok ())).2.2
      (by decide) (by decide) (by decide)⟩

/-- C3: on mutation success the submission returns to Idle with the success
message shown and a 3000 ms `setTimeout` scheduled whose firing clears the
message with no user action; and on a torn-down instance the timer callback
and the submission continuation change nothing — React discards state
updates of unmounted instances, which `dispatch` models. -/
theorem success_timer_and_unmount_noop (c : Component) (res : Except String Unit) :
    (c.mounted = true →
      ((submitSettle c (.ok ())).1.st.isSubmitting = false ∧
       (submitSettle c (.ok ())).1.st.successMessage = successText ∧
       (submitSettle c (.ok ())).2 = some 3000 ∧
       (timerFire (submitSettle c (.ok ())).1).st.successMessage = "")) ∧
    (c.mounted = false →
      timerFire c = c ∧ (submitSettle c res).1 = c) := by
  constructor
  · intro h
    refine ⟨?_, ?_, rfl, ?_⟩ <;>
      simp [submitSettle, timerFire, dispatch, clearSuccessMessage, h]
  · intro h
    refine ⟨?_, ?_⟩
    · simp [timerFire, dispatch, h]
    · cases res <;> simp [submitSettle, dispatch, h]

/-- Witness for C3: a mounted instance settling successfully shows the
success message, schedules the 3000 ms timer and is Idle again; on an
unmounted instance the timer and a pending rejection continuation are
no-ops. -/
theorem success_timer_and_unmount_noop_witness :
    ((submitSettle ⟨submittingState, true⟩ (.ok ())).1.st.isSubmitting = false ∧
     (submitSettle ⟨submittingState, true⟩ (.ok ())).1.st.successMessage = successText ∧
     (submitSettle ⟨submittingState, true⟩ (.ok ())).2 = some 3000 ∧
     (timerFire (submitSettle ⟨submittingState, true⟩ (.ok ())).1).st.successMessage = "") ∧
    (timerFire ⟨submittingState, false⟩ = ⟨submittingState, false⟩ ∧
     (submitSettle ⟨submittingState, false⟩ (.error "Network error")).1 =
       ⟨submittingState, false⟩) :=
  ⟨(success_timer_and_unmount_noop ⟨submittingState, true⟩
      (.error "Network error")).1 rfl,
   (success_timer_and_unmount_noop ⟨submittingState, false⟩
      (.error "Network error")).2 rfl⟩

/-- Counterexample to C4 as stated: with the success message of an earlier
submission still displayed, a validation failure sets the error message but
does not clear `successMessage` — the two are separate state fields, and
the rendered form shows both messages at once rather than replacing the
success message. -/
theorem validation_error_keeps_success_cex :
    submitValidate staleSuccessState =
      .rejected { staleSuccessState with errorMessage := "Name cannot be empty." } ∧
    ({ staleSuccessState with errorMessage := "Name cannot be empty." } : FormState).successMessage =
      successText ∧
    updatePageRender (some [sampleRecord])
        { staleSuccessState with errorMessage := "Name cannot be empty." } =
      .form [sampleRecord]
        { selectorDisabled := false, nameDisabled := false, valueDisabled := false,
          submitDisabled := false, errorShown := some "Name cannot be empty.",
          successShown := some successText } := by
  refine ⟨by decide, by decide, by decide⟩

/-- C4 (amended): a validation failure of `handleSubmit` changes only
`errorMessage`; `selectedId`, the drafts, `isSubmitting` — and also
`successMessage`, which is a separate field that is *not* cleared, so a
still-displayed success message remains shown alongside the error. -/
theorem validation_failure_frame (st st' : FormState)
    (h : submitValidate st = .rejected st') :
    st'.selectedId = st.selectedId ∧ st'.name = st.name ∧ st'.value = st.value ∧
    st'.isSubmitting = st.isSubmitting ∧ st'.successMessage = st.successMessage := by
  rw [submitValidate] at h
  split_ifs at h <;>
    (injection h with h2; subst h2; exact ⟨rfl, rfl, rfl, rfl, rfl⟩)

/-- Witness for C4 (amended): the blank-name failure from a state still
showing the success message keeps every field but `errorMessage`. -/
theorem validation_failure_frame_witness :
    ({ staleSuccessState with errorMessage := "Name cannot be empty." } : FormState).selectedId =
      staleSuccessState.selectedId ∧
    ({ staleSuccessState with errorMessage := "Name cannot be empty." } : FormState).name =
      staleSuccessState.name ∧
    ({ staleSuccessState with errorMessage := "Name cannot be empty." } : FormState).value =
      staleSuccessState.value ∧
    ({ staleSuccessState with errorMessage := "Name cannot be empty." } : FormState).isSubmitting =
      staleSuccessState.isSubmitting ∧
    ({ staleSuccessState with errorMessage := "Name cannot be empty." } : FormState).successMessage =
      staleSuccessState.successMessage :=
  validation_failure_frame staleSuccessState
    { staleSuccessState with errorMessage := "Name cannot be empty." } (by decide)

/-- C5: both pages render the loading state exactly for the
not-yet-delivered sentinel (`undefined`), and the empty state — for
UpdatePage the early return without any form or selector — exactly for an
available zero-length record set; pending and empty are never confused. -/
theorem loading_empty_tristate (d : Option (List Record)) (st : FormState) :
    (viewPageRender d = .loading ↔ d = none) ∧
    (updatePageRender d st = .loading ↔ d = none) ∧
    (viewPageRender d = .empty ↔ d = some []) ∧
    (updatePageRender d st = .empty ↔ d = some []) := by
  cases d with
  | none => simp [viewPageRender, updatePageRender]
  | some l =>
    cases l with
    | nil => simp [viewPageRender, updatePageRender]
    | cons x xs => simp [viewPageRender, updatePageRender]

/-- Witness for C5: the sentinel renders loading, the empty available set
renders the empty state, on both pages. -/
theorem loading_empty_tristate_witness :
    viewPageRender none = .loading ∧
    updatePageRender none initialFormState = .loading ∧
    viewPageRender (some []) = .empty ∧
    updatePageRender (some []) initialFormState = .empty :=
  ⟨(loading_empty_tristate none initialFormState).1.mpr rfl,
   (loading_empty_tristate none initialFormState).2.1.mpr rfl,
   (loading_empty_tristate (some []) initialFormState).2.2.1.mpr rfl,
   (loading_empty_tristate (some []) initialFormState).2.2.2.mpr rfl⟩

/-- C6: in every rendered populated form, `isSubmitting` disables the
selector, both inputs and the submit button, and an empty `selectedId`
disables the two inputs and the submit button. -/
theorem disablement_policy (d : Option (List Record)) (st : FormState)
    (opts : List Record) (c : FormControls)
    (h : updatePageRender d st = .form opts c) :
    (st.isSubmitting = true →
      c.selectorDisabled = true ∧ c.nameDisabled = true ∧
      c.valueDisabled = true ∧ c.submitDisabled = true) ∧
    (st.selectedId = "" →
      c.nameDisabled = true ∧ c.valueDisabled = true ∧ c.submitDisabled = true) := by
  cases d with
  | none => exact absurd h (by simp [updatePageRender])
  | some l =>
    rw [updatePageRender] at h
    by_cases hl : l.length = 0
    · rw [if_pos hl] at h
      exact UpdateRender.noConfusion h
    · rw [if_neg hl] at h
      injection h with h1 h2
      subst h2
      constructor
      · intro hs
        simp [hs]
      · intro hs
        simp [hs]

/-- Witness for C6: the form rendered mid-submission has all four controls
disabled, and the form rendered with no selection has the two inputs and
the submit button disabled. -/
theorem disablement_policy_witness :
    (submittingState.isSubmitting = true →
      (true : Bool) = true ∧ (true : Bool) = true ∧
      (true : Bool) = true ∧ (true : Bool) = true) ∧
    (initialFormState.selectedId = "" →
      (true : Bool) = true ∧ (true : Bool) = true ∧ (true : Bool) = true) :=
  ⟨(disablement_policy (some [sampleRecord]) submittingState [sampleRecord]
      { selectorDisabled := true, nameDisabled := true, valueDisabled := true,
        submitDisabled := true, errorShown := none, successShown := none }
      (by decide)).1,
   (disablement_policy (some [sampleRecord]) initialFormState [sampleRecord]
      { selectorDisabled := false, nameDisabled := true, valueDisabled := true,
        submitDisabled := true, errorShown := none, successShown := none }
      (by decide)).2⟩

/-- C7: when the awaited mutation rejects with reason `r`, the run ends with
`errorMessage` exactly `"Failed to update record: " ++ r`, `isSubmitting`
back to false, exactly the one invocation already made (no retry), and the
re-rendered populated form has all controls enabled again. -/
theorem mutation_failure_sets_error (st : FormState) (r : String)
    (st' : FormState) (args : MutationArgs)
    (h : submitValidate st = .invoked st' args) :
    submitRun st (.error r) =
      ({ st' with errorMessage := failPrefix ++ r, isSubmitting := false },
        [args], none) ∧
    (submitRun st (.error r)).1.errorMessage = "Failed to update record: " ++ r ∧
    (submitRun st (.error r)).1.isSubmitting = false ∧
    (∀ x xs opts c,
      updatePageRender (some (x :: xs)) (submitRun st (.error r)).1 = .form opts c →
      c.selectorDisabled = false ∧ c.nameDisabled = false ∧
      c.valueDisabled = false ∧ c.submitDisabled = false) := by
  have hrun : submitRun st (.error r) =
      ({ st' with errorMessage := failPrefix ++ r, isSubmitting := false },
        [args], none) := by
    rw [submitRun, h]
  have hsel : ¬st.selectedId = "" := by
    intro he
    rw [submitValidate, if_pos he] at h
    exact SubmitStep.noConfusion h
  have hsel' : st'.selectedId = st.selectedId := by
    rw [submitValidate] at h
    split_ifs at h
    injection h with h1 h2
    subst h1
    rfl
  refine ⟨hrun, by rw [hrun]; rfl, by rw [hrun], ?_⟩
  intro x xs opts c hc
  rw [hrun] at hc
  rw [updatePageRender, if_neg (by simp)] at hc
  injection hc with h1 h2
  subst h2
  have hbeq : (st'.selectedId == "") = false := by
    rw [hsel']
    simp [hsel]
  exact ⟨rfl, by simp [hbeq], by simp [hbeq], by simp [hbeq]⟩

/-- Witness for C7: rejection with reason `"Network error"` yields the
message `"Failed to update record: Network error"` and an Idle, re-enabled
form. -/
theorem mutation_failure_sets_error_witness :
    (submitRun validState (.error "Network error")).1.errorMessage =
      "Failed to update record: Network error" ∧
    (submitRun validState (.error "Network error")).1.isSubmitting = false :=
  ⟨(mutation_failure_sets_error validState "Network error"
      { validState with isSubmitting := true, errorMessage := "", successMessage := "" }
      { id := "abc123", name := "Alpha", value := .num 100 } (by decide)).2.1,
   (mutation_failure_sets_error validState "Network error"
      { validState with isSubmitting := true, errorMessage := "", successMessage := "" }
      { id := "abc123", name := "Alpha", value := .num 100 } (by decide)).2.2.1⟩

/-- C8: selecting an id that belongs to a record of the loaded set (ids
being unique) copies that record's `name` and stringified `value` into the
drafts and clears both messages. -/
theorem select_populates_drafts (l : List Record) (st : FormState)
    (id : String) (r : Record)
    (hnd : (l.map Record._id).Nodup) (hmem : r ∈ l) (hid : r._id = id) :
    handleRecordSelect (some l) id st =
      { st with selectedId := id, name := r.name, value := jsNumToString r.value,
                successMessage := "", errorMessage := "" } := by
  rw [handleRecordSelect]
  simp only [Option.getD_some]
  rw [find?_id_eq l id r hnd hmem hid]

/-- Witness for C8: selecting `"abc123"` from a two-record set, with a stale
error message displayed, populates `"Alpha"`/`"100"` and clears the
messages. -/
theorem select_populates_drafts_witness :
    handleRecordSelect (some [sampleRecord, otherRecord]) "abc123"
        { initialFormState with errorMessage := "Please select a record to update." } =
      { selectedId := "abc123", name := "Alpha", value := "100",
        isSubmitting := false, successMessage := "", errorMessage := "" } :=
  (select_populates_drafts [sampleRecord, otherRecord]
      { initialFormState with errorMessage := "Please select a record to update." }
      "abc123" sampleRecord (by decide) (by decide) (by decide)).trans (by decide)

/-- C9: `updateMockData`, given `{id, name, value}` for a stored document
(ids being unique), succeeds returning the id; the patched table overwrites
exactly `name` and `value` on the matching document, every other document
is unchanged, and no patch ever touches `_id`, `description` or
`_creationTime`. -/
theorem updateMockData_patches_exactly (db : List Record) (a : MutationArgs)
    (r : Record) (hnd : (db.map Record._id).Nodup)
    (hmem : r ∈ db) (hid : r._id = a.id) :
    updateMockData db a = some (a.id, db.map (patchFn a)) ∧
    patchFn a r = { r with name := a.name, value := a.value } ∧
    (∀ r' ∈ db, r' ≠ r → patchFn a r' = r') ∧
    (∀ r' : Record, (patchFn a r')._id = r'._id ∧
      (patchFn a r').description = r'.description ∧
      (patchFn a r')._creationTime = r'._creationTime) := by
  have hany : db.any (fun x => x._id == a.id) = true :=
    List.any_eq_true.mpr ⟨r, hmem, by simp [hid]⟩
  refine ⟨?_, ?_, ?_, ?_⟩
  · rw [updateMockData, dbPatch, if_pos hany]
  · rw [patchFn, if_pos hid]
  · intro r' hmem' hne
    rw [patchFn, if_neg ?_]
    intro he
    have e1 := find?_id_eq db a.id r hnd hmem hid
    have e2 := find?_id_eq db a.id r' hnd hmem' he
    rw [e1] at e2
    injection e2 with e3
    exact hne e3.symm
  · intro r'
    rw [patchFn]
    split <;> exact ⟨rfl, rfl, rfl⟩

/-- Witness for C9: patching `"abc123"` in a two-document table rewrites
only that document's `name`/`value` and returns the id; `otherRecord` and
the untouched fields survive verbatim. -/
theorem updateMockData_patches_exactly_witness :
    updateMockData [sampleRecord, otherRecord]
        { id := "abc123", name := "Updated Name", value := .num 250 } =
      some ("abc123",
        [{ sampleRecord with name := "Updated Name", value := .num 250 },
         otherRecord]) :=
  (updateMockData_patches_exactly [sampleRecord, otherRecord]
      { id := "abc123", name := "Updated Name", value := .num 250 }
      sampleRecord (by decide) (by decide) (by decide)).1.trans (by decide)

/-- C10: once a record is selected and the trimmed name is non-empty, the
value check passes exactly for a non-empty draft whose JavaScript numeric
coercion is not NaN — so `"   "` (coercion 0) and `"Infinity"` reach the
mutation carrying that coercion, while `""` is rejected with "Value must be
a valid number." although its coercion is also 0. -/
theorem value_check_boundary (st : FormState)
    (hsel : st.selectedId ≠ "") (hname : jsTrim st.name ≠ "") :
    ((∃ st' args, submitValidate st = .invoked st' args) ↔
      (st.value ≠ "" ∧ jsIsNaN (jsToNumber st.value) = false)) ∧
    (st.value = "" →
      submitValidate st =
        .rejected { st with errorMessage := "Value must be a valid number." }) ∧
    (∀ st' args, submitValidate st = .invoked st' args →
      args = { id := st.selectedId, name := jsTrim st.name,
               value := jsToNumber st.value }) ∧
    jsToNumber "   " = .num 0 ∧ jsToNumber "Infinity" = .inf ∧
    jsToNumber "" = .num 0 := by
  have hv : submitValidate st =
      if st.value = "" ∨ jsIsNaN (jsToNumber st.value) then
        .rejected { st with errorMessage := "Value must be a valid number." }
      else
        .invoked
          { st with isSubmitting := true, errorMessage := "", successMessage := "" }
          { id := st.selectedId, name := jsTrim st.name, value := jsToNumber st.value } := by
    rw [submitValidate, if_neg hsel, if_neg hname]
  by_cases hc : st.value = "" ∨ (jsIsNaN (jsToNumber st.value) : Prop)
  · rw [if_pos hc] at hv
    refine ⟨?_, fun _ => hv, ?_, by decide, by decide, by decide⟩
    · constructor
      · rintro ⟨st', args, he⟩
        rw [hv] at he
        exact absurd he (by simp)
      · rintro ⟨h1, h2⟩
        rcases hc with hc | hc
        · exact absurd hc h1
        · rw [hc] at h2
          exact absurd h2 (by simp)
    · intro st' args he
      rw [hv] at he
      exact absurd he (by simp)
  · rw [if_neg hc] at hv
    push_neg at hc
    refine ⟨?_, fun h => absurd h hc.1, ?_, by decide, by decide, by decide⟩
    · exact ⟨fun _ => ⟨hc.1, by simpa using hc.2⟩, fun _ => ⟨_, _, hv⟩⟩
    · intro st' args he
      rw [hv] at he
      injection he with h1 h2
      exact h2.symm

/-- Witness for C10: with `"abc123"` selected and name `"Alpha"`, the draft
`"   "` passes validation (the mutation is reached), and the draft `""` is
rejected with the value error message. -/
theorem value_check_boundary_witness :
    (∃ st' args,
      submitValidate { validState with value := "   " } = .invoked st' args) ∧
    submitValidate { validState with value := "" } =
      .rejected { validState with value := "", errorMessage := "Value must be a valid number." } ∧
    jsToNumber "   " = .num 0 ∧ jsToNumber "Infinity" = .inf ∧ jsToNumber "" = .num 0 :=
  ⟨(value_check_boundary { validState with value := "   " }
      (by decide) (by decide)).1.mpr ⟨by decide, by decide⟩,
   (value_check_boundary { validState with value := "" }
      (by decide) (by decide)).2.1 rfl,
   (value_check_boundary validState (by decide) (by decide)).2.2.2⟩
